import Mathlib

/-!
Verification of the in-memory stream buffer of the async-output-service
(`src/server/engine/in_memory_stream_impl.go`).

The Go implementation keeps one bounded channel (`outputs chan StreamEntry`)
per stream, a `stopped` flag, a `stopCh` broadcast channel closed on `Stop`,
and a process-wide knob `circularBufferMaxIterations` (default 100).

Shallow embedding conventions used here:
- the buffered channel is a FIFO `List StreamEntry` (head = oldest entry) with
  the hard capacity stored in `capacity`;
- `stopCh` being closed is equivalent to `stopped = true` (the code closes it
  exactly when it sets the flag, under the lock), so only the flag is kept;
- `select` statements are sequentialized: an arm is taken iff it is ready,
  and with no concurrent peer a blocking wait that cannot progress ends in the
  `time.After` arm, i.e. a timeout outcome;
- the process-wide global `circularBufferMaxIterations` is threaded as an
  explicit argument (its value at call time); `SetCircularBufferMaxIterations`
  returns the new value of the global;
- the retry loop of `sendCircularBufferWithChannel` can observe entries
  enqueued by concurrent senders between its `<-outputsChan` (dequeue-oldest)
  and its enqueue attempt (the code's own comment: "this is best effort only
  because other operations are not using locks").  Those entries are modelled
  by an `interference` schedule giving the entries that land in the channel
  during iteration `k`; a purely sequential call uses `noInterference`.
Go `uuid.UUID`, the output payload and `time.Time` are opaque to the engine
and are modelled as `Nat`.
-/

namespace AsyncOutputService

/-- `StreamEntry` from the Go source: one output unit in the stream. -/
structure StreamEntry where
  outputUUID : Nat
  output : Nat
  timestamp : Nat
deriving DecidableEq, Repr

/-- The `ErrorType` values returned by the engine source file:
`ErrorTypeNone`, `ErrorTypeStreamStopped`, `ErrorTypeInvalidRequest`,
`ErrorTypeWaitingTimeout`, `ErrorTypeCircularBufferIterationLimit`.
The source returns `ErrorTypeWaitingTimeout` both from the blocking-send
timeout arm and from the `Receive` timeout arm. -/
inductive ErrorType where
  | none
  | streamStopped
  | invalidRequest
  | waitingTimeout
  | circularBufferIterationLimit
deriving DecidableEq, Repr

/-- `InternalReceiveResponse` built by `Receive` on success. -/
structure InternalReceiveResponse where
  outputUuid : Nat
  output : Nat
  timestamp : Nat
deriving DecidableEq, Repr

/-- State of one `InMemoryStreamImpl`: the buffered channel contents
(head = oldest), the `stopped` flag, and the channel capacity. -/
structure StreamState where
  outputs : List StreamEntry
  stopped : Bool
  capacity : Nat
deriving DecidableEq, Repr

/-- Default of the process-wide global `circularBufferMaxIterations = 100`. -/
def circularBufferMaxIterationsDefault : Int := 100

/-- `SetCircularBufferMaxIterations` assigns the process-wide global; the
global is threaded explicitly, so the setter returns the value the global
holds afterwards. -/
def SetCircularBufferMaxIterations (maxIterations : Int) : Int :=
  maxIterations

/-- `NewInMemoryStreamImpl(size)`: fresh buffer with an empty channel of
capacity `size`, not stopped. -/
def NewInMemoryStreamImpl (size : Nat) : StreamState :=
  { outputs := [], stopped := false, capacity := size }

/-- Schedule for a call with no concurrent senders: nothing else lands in
the channel during the overwrite loop. -/
def noInterference : Nat → List StreamEntry :=
  fun _ => []

/-- The `for` loop of `sendCircularBufferWithChannel` (source lines 94-112),
reached with the buffer full and `stopped = false`.  One unit of fuel is one
permitted iteration: the Go counter starts at 0, is incremented at the top,
and the loop exits with `ErrorTypeCircularBufferIterationLimit` as soon as
`iterations > circularBufferMaxIterations`, so exactly `max(0, maxIterations)`
iterations run; the cap is checked before the iteration's dequeue.  Each
iteration removes the oldest entry (`<-outputsChan`), after which
`interference k` is what concurrent senders slip into the channel before this
call's enqueue attempt; the attempt succeeds iff a slot is free. -/
def circularOverwriteLoop (entry : StreamEntry) (capacity : Nat)
    (interference : Nat → List StreamEntry) :
    Nat → Nat → List StreamEntry → ErrorType × List StreamEntry
  | 0, _, q => (ErrorType.circularBufferIterationLimit, q)
  | fuel + 1, k, q =>
    let q1 := q.tail ++ interference k
    if q1.length < capacity then (ErrorType.none, q1 ++ [entry])
    else circularOverwriteLoop entry capacity interference fuel (k + 1) q1

/-- `sendCircularBufferWithChannel` (source lines 71-114): reject capacity 0;
otherwise try a non-blocking enqueue (the `select` with `default`); when the
channel is full, take the lock, re-check `stopped`, and run the overwrite
loop.  The `stopCh` arm of the `select` is the `stopped` check here. -/
def sendCircularBufferWithChannel (s : StreamState) (entry : StreamEntry)
    (maxIterations : Int) (interference : Nat → List StreamEntry) :
    ErrorType × StreamState :=
  if s.capacity = 0 then
    (ErrorType.invalidRequest, s)
  else if s.stopped then
    (ErrorType.streamStopped, s)
  else if s.outputs.length < s.capacity then
    (ErrorType.none, { s with outputs := s.outputs ++ [entry] })
  else
    let r := circularOverwriteLoop entry s.capacity interference
      maxIterations.toNat 0 s.outputs
    (r.1, { s with outputs := r.2 })

/-- `sendBlockingQueueWithChannel` (source lines 117-128): wait on enqueue /
stop / `time.After(timeoutSeconds)`.  Sequentially: enqueue if a slot is
free, report stopped if the stop signal is up, otherwise the timer fires and
the call returns `ErrorTypeWaitingTimeout`. -/
def sendBlockingQueueWithChannel (s : StreamState) (entry : StreamEntry)
    (timeoutSeconds : Int) : ErrorType × StreamState :=
  if s.stopped then
    (ErrorType.streamStopped, s)
  else if s.outputs.length < s.capacity then
    (ErrorType.none, { s with outputs := s.outputs ++ [entry] })
  else
    (ErrorType.waitingTimeout, s)

/-- `Send` (source lines 49-68): fail fast when stopped; build the entry;
dispatch on this call's `blockingWriteTimeoutSeconds`: `<= 0` selects the
circular-buffer path, `> 0` the blocking-queue path.  `maxIterations` is the
value of the process-wide global at call time; a sequential call has no
interference. -/
def Send (s : StreamState) (output outputUuid timestamp : Nat)
    (blockingWriteTimeoutSeconds : Int) (maxIterations : Int) :
    ErrorType × StreamState :=
  if s.stopped then
    (ErrorType.streamStopped, s)
  else
    let entry : StreamEntry :=
      { outputUUID := outputUuid, output := output, timestamp := timestamp }
    if blockingWriteTimeoutSeconds ≤ 0 then
      sendCircularBufferWithChannel s entry maxIterations noInterference
    else
      sendBlockingQueueWithChannel s entry blockingWriteTimeoutSeconds

/-- `Receive` (source lines 131-151): fail fast when stopped; wait on
dequeue / stop / `time.After(timeoutSeconds)`.  Sequentially: dequeue the
oldest entry if one is buffered, otherwise the timer fires and the call
returns `(nil, ErrorTypeWaitingTimeout)`. -/
def Receive (s : StreamState) (timeoutSeconds : Int) :
    Option InternalReceiveResponse × ErrorType × StreamState :=
  if s.stopped then
    (Option.none, ErrorType.streamStopped, s)
  else
    match s.outputs with
    | [] => (Option.none, ErrorType.waitingTimeout, s)
    | e :: rest =>
      (Option.some
        { outputUuid := e.outputUUID, output := e.output,
          timestamp := e.timestamp },
       ErrorType.none, { s with outputs := rest })

/-- `Stop` (source lines 154-167): under the lock, a no-op when already
stopped, otherwise set `stopped` and close the signal channels.  Returns the
Go `error` result, which is `nil` on both paths. -/
def Stop (s : StreamState) : Option String × StreamState :=
  if s.stopped then
    (Option.none, s)
  else
    (Option.none, { s with stopped := true })

/-- One engine operation, for stating properties over call sequences. -/
inductive Op where
  | send (output outputUuid timestamp : Nat)
      (blockingWriteTimeoutSeconds maxIterations : Int)
  | receive (timeoutSeconds : Int)
  | stop
deriving DecidableEq, Repr

/-- State after one sequential operation. -/
def applyOp (s : StreamState) : Op → StreamState
  | Op.send o u t b m => (Send s o u t b m).2
  | Op.receive t => (Receive s t).2.2
  | Op.stop => (Stop s).2

/-- State after a sequence of sequential operations. -/
def runOps (s : StreamState) : List Op → StreamState
  | [] => s
  | op :: rest => runOps (applyOp s op) rest

/-- A concrete full capacity-1 buffer, used to instantiate theorems. -/
def fullCapOneBuffer : StreamState :=
  { outputs := [{ outputUUID := 9, output := 9, timestamp := 9 }], stopped := false, capacity := 1 }

/-- Circular-mode Send of a whole entry (its fields passed as the three Go
arguments), with the default process-wide iteration cap. -/
def sendDefault (s : StreamState) (e : StreamEntry) : ErrorType × StreamState :=
  Send s e.output e.outputUUID e.timestamp 0 circularBufferMaxIterationsDefault

/-- Once stopped, every single operation leaves the state unchanged. -/
theorem applyOp_of_stopped (s : StreamState) (op : Op) (h : s.stopped = true) :
    applyOp s op = s := by
  cases op <;> simp [applyOp, Send, Receive, Stop, h]

/-- Once stopped, every operation sequence leaves the state unchanged. -/
theorem runOps_of_stopped (s : StreamState) (ops : List Op)
    (h : s.stopped = true) : runOps s ops = s := by
  induction ops with
  | nil => rfl
  | cons op rest ih => rw [runOps, applyOp_of_stopped s op h]; exact ih

/-- When an iteration of the overwrite loop finds a free slot after its
dequeue, it enqueues the new entry and returns success. -/
theorem circularOverwriteLoop_step_space (entry : StreamEntry) (cap : Nat)
    (intf : Nat → List StreamEntry) (fuel k : Nat) (q : List StreamEntry)
    (h : (q.tail ++ intf k).length < cap) :
    circularOverwriteLoop entry cap intf (fuel + 1) k q
      = (ErrorType.none, (q.tail ++ intf k) ++ [entry]) := by
  simp only [circularOverwriteLoop, if_pos h]

/-- A circular send on a full buffer with at least one permitted iteration
and no concurrent interference drops the oldest entry, enqueues the new one
and succeeds. -/
theorem sendCircularBufferWithChannel_full_ok (s : StreamState)
    (entry : StreamEntry) (M : Int) (hstop : s.stopped = false)
    (hfull : s.outputs.length = s.capacity) (hcap : 1 ≤ s.capacity)
    (hM : 1 ≤ M) :
    sendCircularBufferWithChannel s entry M noInterference
      = (ErrorType.none, { s with outputs := s.outputs.tail ++ [entry] }) := by
  have hc0 : ¬ s.capacity = 0 := by omega
  have hnl : ¬ s.outputs.length < s.capacity := by omega
  obtain ⟨f, hf⟩ : ∃ f, M.toNat = f + 1 := ⟨M.toNat - 1, by omega⟩
  have hsp : (s.outputs.tail ++ noInterference 0).length < s.capacity := by
    simp [noInterference, List.length_tail]
    omega
  rw [sendCircularBufferWithChannel, if_neg hc0, if_neg (by simp [hstop]),
    if_neg hnl]
  simp only [hf, circularOverwriteLoop_step_space entry s.capacity
    noInterference f 0 s.outputs hsp, noInterference, List.append_nil]

/-- C1: On a non-stopped empty buffer of capacity at least 1, a single Send
succeeds in either discipline, and a single subsequent Receive returns
exactly the sent entry (same uuid, payload and timestamp) with outcome ok. -/
theorem send_then_receive_roundtrip (s : StreamState)
    (hstop : s.stopped = false) (hempty : s.outputs = [])
    (hcap : 1 ≤ s.capacity) (o u t : Nat) (bwt maxIter tmo : Int) :
    (Send s o u t bwt maxIter).1 = ErrorType.none ∧
    (Receive (Send s o u t bwt maxIter).2 tmo).1
      = Option.some { outputUuid := u, output := o, timestamp := t } ∧
    (Receive (Send s o u t bwt maxIter).2 tmo).2.1 = ErrorType.none := by
  have hc0 : ¬ s.capacity = 0 := by omega
  have hpos : 0 < s.capacity := hcap
  by_cases hb : bwt ≤ 0
  · simp [Send, sendCircularBufferWithChannel, Receive, hstop, hb, hc0,
      hpos, hempty]
  · simp [Send, sendBlockingQueueWithChannel, Receive, hstop, hb, hpos,
      hempty]

/-- Witness for C1 at a concrete buffer and entry. -/
theorem send_then_receive_roundtrip_witness :
    (Send (NewInMemoryStreamImpl 1) 7 3 5 0 100).1 = ErrorType.none ∧
    (Receive (Send (NewInMemoryStreamImpl 1) 7 3 5 0 100).2 30).1
      = Option.some { outputUuid := 3, output := 7, timestamp := 5 } ∧
    (Receive (Send (NewInMemoryStreamImpl 1) 7 3 5 0 100).2 30).2.1
      = ErrorType.none :=
  send_then_receive_roundtrip (NewInMemoryStreamImpl 1) rfl rfl
    (by decide) 7 3 5 0 100 30

/-- C2: On a fresh capacity-2 buffer, four circular-mode Sends of entries
e1, e2, e3, e4 all succeed (a circular Send on a full buffer drops the
oldest entry and enqueues the new one), and the next two Receives return
e3 then e4. -/
theorem circular_overflow_scenario (e1 e2 e3 e4 : StreamEntry)
    (tmo1 tmo2 : Int) :
    (sendDefault (NewInMemoryStreamImpl 2) e1).1 = ErrorType.none ∧
    (sendDefault (sendDefault (NewInMemoryStreamImpl 2) e1).2 e2).1 = ErrorType.none ∧
    (sendDefault (sendDefault (sendDefault (NewInMemoryStreamImpl 2) e1).2 e2).2 e3).1 = ErrorType.none ∧
    (sendDefault (sendDefault (sendDefault (sendDefault (NewInMemoryStreamImpl 2) e1).2 e2).2 e3).2 e4).1 = ErrorType.none ∧
    (Receive (sendDefault (sendDefault (sendDefault (sendDefault (NewInMemoryStreamImpl 2) e1).2 e2).2 e3).2 e4).2 tmo1).1 = Option.some { outputUuid := e3.outputUUID, output := e3.output, timestamp := e3.timestamp } ∧
    (Receive (sendDefault (sendDefault (sendDefault (sendDefault (NewInMemoryStreamImpl 2) e1).2 e2).2 e3).2 e4).2 tmo1).2.1 = ErrorType.none ∧
    (Receive (Receive (sendDefault (sendDefault (sendDefault (sendDefault (NewInMemoryStreamImpl 2) e1).2 e2).2 e3).2 e4).2 tmo1).2.2 tmo2).1 = Option.some { outputUuid := e4.outputUUID, output := e4.output, timestamp := e4.timestamp } ∧
    (Receive (Receive (sendDefault (sendDefault (sendDefault (sendDefault (NewInMemoryStreamImpl 2) e1).2 e2).2 e3).2 e4).2 tmo1).2.2 tmo2).2.1 = ErrorType.none := by
  have h1 : sendDefault (NewInMemoryStreamImpl 2) e1
      = (ErrorType.none, { outputs := [e1], stopped := false, capacity := 2 }) := rfl
  have h2 : sendDefault { outputs := [e1], stopped := false, capacity := 2 } e2
      = (ErrorType.none, { outputs := [e1, e2], stopped := false, capacity := 2 }) := rfl
  have h3 : sendDefault { outputs := [e1, e2], stopped := false, capacity := 2 } e3
      = (ErrorType.none, { outputs := [e2, e3], stopped := false, capacity := 2 }) := rfl
  have h4 : sendDefault { outputs := [e2, e3], stopped := false, capacity := 2 } e4
      = (ErrorType.none, { outputs := [e3, e4], stopped := false, capacity := 2 }) := rfl
  have h5 : Receive { outputs := [e3, e4], stopped := false, capacity := 2 } tmo1
      = (Option.some { outputUuid := e3.outputUUID, output := e3.output, timestamp := e3.timestamp },
         ErrorType.none, { outputs := [e4], stopped := false, capacity := 2 }) := rfl
  have h6 : Receive { outputs := [e4], stopped := false, capacity := 2 } tmo2
      = (Option.some { outputUuid := e4.outputUUID, output := e4.output, timestamp := e4.timestamp },
         ErrorType.none, { outputs := [], stopped := false, capacity := 2 }) := rfl
  refine ⟨?_, ?_, ?_, ?_, ?_, ?_, ?_, ?_⟩ <;>
    simp [h1, h2, h3, h4, h5, h6]

/-- C3: After Stop has returned, every subsequent operation sequence leaves
the buffer unchanged, and on any state reached afterwards a Send returns
the stopped outcome without enqueuing and a Receive returns (none, stopped)
without dequeuing, even if entries remain queued. -/
theorem stop_safety (s : StreamState) (ops : List Op)
    (o u t : Nat) (b m tmo : Int) :
    runOps (Stop s).2 ops = (Stop s).2 ∧
    ((Stop s).2).stopped = true ∧
    Send (runOps (Stop s).2 ops) o u t b m
      = (ErrorType.streamStopped, runOps (Stop s).2 ops) ∧
    Receive (runOps (Stop s).2 ops) tmo
      = (Option.none, ErrorType.streamStopped, runOps (Stop s).2 ops) := by
  have hst : ((Stop s).2).stopped = true := by
    by_cases h : s.stopped <;> simp [Stop, h]
  have hrun := runOps_of_stopped _ ops hst
  refine ⟨hrun, hst, ?_, ?_⟩ <;> rw [hrun] <;> simp [Send, Receive, hst]

/-- C4: A circular-mode Send on a non-stopped capacity-0 buffer returns the
invalid-request outcome and leaves the whole state unchanged. -/
theorem circular_capacity_zero_rejected (s : StreamState)
    (hstop : s.stopped = false) (hcap : s.capacity = 0)
    (o u t : Nat) (bwt maxIter : Int) (hb : bwt ≤ 0) :
    Send s o u t bwt maxIter = (ErrorType.invalidRequest, s) := by
  simp [Send, sendCircularBufferWithChannel, hstop, hb, hcap]

/-- Witness for C4 at a concrete capacity-0 buffer. -/
theorem circular_capacity_zero_rejected_witness :
    Send (NewInMemoryStreamImpl 0) 7 3 5 0 100
      = (ErrorType.invalidRequest, NewInMemoryStreamImpl 0) :=
  circular_capacity_zero_rejected (NewInMemoryStreamImpl 0) rfl rfl
    7 3 5 0 100 (by decide)

/-- C5: The overflow discipline is chosen per Send call by that call's
`blockingWriteTimeoutSeconds` alone: a value at most 0 dispatches to the
circular path and a positive value to the bounded-blocking path, so on the
same full buffer a circular-mode Send overwrites and succeeds while a
bounded-blocking Send returns waiting-timeout and changes nothing. -/
theorem per_call_discipline (s : StreamState)
    (hstop : s.stopped = false) (hfull : s.outputs.length = s.capacity)
    (hcap : 1 ≤ s.capacity) (o u t : Nat) (b1 b2 maxIter : Int)
    (hb1 : b1 ≤ 0) (hb2 : 0 < b2) :
    Send s o u t b1 maxIter
      = sendCircularBufferWithChannel s
          { outputUUID := u, output := o, timestamp := t } maxIter
          noInterference ∧
    Send s o u t b2 maxIter
      = sendBlockingQueueWithChannel s
          { outputUUID := u, output := o, timestamp := t } b2 ∧
    (Send s o u t b1 circularBufferMaxIterationsDefault).1
      = ErrorType.none ∧
    Send s o u t b2 maxIter = (ErrorType.waitingTimeout, s) := by
  have hnl : ¬ s.outputs.length < s.capacity := by omega
  refine ⟨by simp [Send, hstop, hb1], by simp [Send, hstop, hb1, hb2, not_le.mpr hb2], ?_, ?_⟩
  · rw [Send, if_neg (by simp [hstop]), if_pos hb1,
      sendCircularBufferWithChannel_full_ok s _ _ hstop hfull hcap
        (by simp [circularBufferMaxIterationsDefault])]
  · rw [Send, if_neg (by simp [hstop]), if_neg (not_le.mpr hb2),
      sendBlockingQueueWithChannel, if_neg (by simp [hstop]), if_neg hnl]

/-- Witness for C5 at a concrete full capacity-1 buffer. -/
theorem per_call_discipline_witness :
    (Send fullCapOneBuffer 7 3 5 0 100
      = sendCircularBufferWithChannel fullCapOneBuffer
          { outputUUID := 3, output := 7, timestamp := 5 } 100 noInterference) ∧
    (Send fullCapOneBuffer 7 3 5 30 100
      = sendBlockingQueueWithChannel fullCapOneBuffer
          { outputUUID := 3, output := 7, timestamp := 5 } 30) ∧
    (Send fullCapOneBuffer 7 3 5 0 circularBufferMaxIterationsDefault).1
      = ErrorType.none ∧
    Send fullCapOneBuffer 7 3 5 30 100
      = (ErrorType.waitingTimeout, fullCapOneBuffer) :=
  per_call_discipline fullCapOneBuffer rfl rfl (by decide)
    7 3 5 0 30 100 (by decide) (by decide)

/-- When an iteration of the overwrite loop still finds the channel full
after its dequeue, it consumes one unit of fuel and retries. -/
theorem circularOverwriteLoop_step_full (entry : StreamEntry) (cap : Nat)
    (intf : Nat → List StreamEntry) (fuel k : Nat) (q : List StreamEntry)
    (h : ¬ (q.tail ++ intf k).length < cap) :
    circularOverwriteLoop entry cap intf (fuel + 1) k q
      = circularOverwriteLoop entry cap intf fuel (k + 1) (q.tail ++ intf k) := by
  simp only [circularOverwriteLoop, if_neg h]

/-- Under persistent contention that refills the single slot at every
iteration, the overwrite loop never succeeds and exits with the
iteration-limit outcome once its fuel is spent. -/
theorem circularOverwriteLoop_contended (entry x : StreamEntry) :
    ∀ (fuel k : Nat) (q : List StreamEntry), q.length = 1 →
      (circularOverwriteLoop entry 1 (fun _ => [x]) fuel k q).1
        = ErrorType.circularBufferIterationLimit
  | 0, _, _, _ => rfl
  | fuel + 1, k, q, hq => by
    have ht : q.tail.length = 0 := by simp [List.length_tail, hq]
    have h1 : (q.tail ++ (fun _ => [x]) k).length = 1 := by simp [ht]
    rw [circularOverwriteLoop_step_full entry 1 (fun _ => [x]) fuel k q (by omega)]
    exact circularOverwriteLoop_contended entry x fuel (k + 1) _ h1

/-- C6: In the circular-overwrite path on a full buffer, each loop
iteration dequeues the oldest entry and re-attempts the enqueue, and when
every attempt fails (here: concurrent senders refill the freed slot each
time) the loop returns circular-overflow-exhausted after the configured
number of iterations; the process-wide cap defaults to 100. -/
theorem circular_overflow_exhausted (M : Int) (e x : StreamEntry)
    (s : StreamState) (hstop : s.stopped = false) (hcap : s.capacity = 1)
    (hq : s.outputs.length = 1) :
    circularBufferMaxIterationsDefault = 100 ∧
    (sendCircularBufferWithChannel s e M (fun _ => [x])).1
      = ErrorType.circularBufferIterationLimit := by
  refine ⟨rfl, ?_⟩
  have hc0 : ¬ s.capacity = 0 := by omega
  have hnl : ¬ s.outputs.length < s.capacity := by omega
  unfold sendCircularBufferWithChannel
  rw [if_neg hc0, if_neg (by simp [hstop]), if_neg hnl]
  rw [hcap]
  exact circularOverwriteLoop_contended e x M.toNat 0 s.outputs hq

/-- Witness for C6: cap set to the default 100 on a concrete full buffer. -/
theorem circular_overflow_exhausted_witness :
    circularBufferMaxIterationsDefault = 100 ∧
    (sendCircularBufferWithChannel fullCapOneBuffer
        { outputUUID := 1, output := 1, timestamp := 1 } 100
        (fun _ => [{ outputUUID := 2, output := 2, timestamp := 2 }])).1
      = ErrorType.circularBufferIterationLimit :=
  circular_overflow_exhausted 100 { outputUUID := 1, output := 1, timestamp := 1 }
    { outputUUID := 2, output := 2, timestamp := 2 } fullCapOneBuffer rfl rfl rfl

/-- C7 counterexample: the Receive timeout outcome is not a distinct error
kind; it is the very same `ErrorTypeWaitingTimeout` that a bounded-blocking
Send returns when it finds no space. -/
theorem receive_timeout_kind_not_distinct :
    (Receive (NewInMemoryStreamImpl 1) 30).2.1
      = (sendBlockingQueueWithChannel fullCapOneBuffer
          { outputUUID := 1, output := 1, timestamp := 1 } 1).1 ∧
    (Receive (NewInMemoryStreamImpl 1) 30).2.1 = ErrorType.waitingTimeout := by
  decide

/-- C7 amended: a Receive that finds no entry within its timeout window
returns (none, waiting-timeout), where the kind is the same
`ErrorTypeWaitingTimeout` a bounded-blocking Send returns when it finds no
space (both surface as HTTP 424). -/
theorem receive_timeout_same_kind (s t : StreamState) (e : StreamEntry)
    (tmo bwt : Int) (h1 : s.stopped = false) (h2 : s.outputs = [])
    (h3 : t.stopped = false) (h4 : ¬ t.outputs.length < t.capacity) :
    Receive s tmo = (Option.none, ErrorType.waitingTimeout, s) ∧
    sendBlockingQueueWithChannel t e bwt = (ErrorType.waitingTimeout, t) := by
  constructor
  · simp [Receive, h1, h2]
  · simp [sendBlockingQueueWithChannel, h3, h4]

/-- Witness for the amended C7 at concrete buffers. -/
theorem receive_timeout_same_kind_witness :
    Receive (NewInMemoryStreamImpl 1) 30
      = (Option.none, ErrorType.waitingTimeout, NewInMemoryStreamImpl 1) ∧
    sendBlockingQueueWithChannel fullCapOneBuffer
        { outputUUID := 1, output := 1, timestamp := 1 } 1
      = (ErrorType.waitingTimeout, fullCapOneBuffer) :=
  receive_timeout_same_kind (NewInMemoryStreamImpl 1) fullCapOneBuffer
    { outputUUID := 1, output := 1, timestamp := 1 } 30 1 rfl rfl rfl (by decide)

/-- C8: Stop is idempotent: the first Stop marks the buffer stopped and
returns no error, and a second Stop is a no-op that returns no error and
leaves the state unchanged. -/
theorem stop_idempotent (s : StreamState) :
    Stop (Stop s).2 = (Option.none, (Stop s).2) ∧
    ((Stop s).2).stopped = true ∧ (Stop s).1 = Option.none := by
  cases hs : s.stopped <;> simp [Stop, hs]

/-- Sequential overwrite loop keeps the queue within capacity. -/
theorem circularOverwriteLoop_length_le (entry : StreamEntry) (cap : Nat) :
    ∀ (fuel k : Nat) (q : List StreamEntry), q.length ≤ cap →
      (circularOverwriteLoop entry cap noInterference fuel k q).2.length ≤ cap
  | 0, _, _, h => h
  | fuel + 1, k, q, h => by
    by_cases hlt : (q.tail ++ noInterference k).length < cap
    · rw [circularOverwriteLoop_step_space entry cap noInterference fuel k q hlt]
      simp [noInterference] at hlt ⊢
      omega
    · rw [circularOverwriteLoop_step_full entry cap noInterference fuel k q hlt]
      refine circularOverwriteLoop_length_le entry cap fuel (k + 1) _ ?_
      simp [noInterference, List.length_tail]
      omega

/-- A sequential circular send keeps the queue within capacity. -/
theorem sendCircularBufferWithChannel_length_le (s : StreamState)
    (e : StreamEntry) (M : Int) (h : s.outputs.length ≤ s.capacity) :
    (sendCircularBufferWithChannel s e M noInterference).2.outputs.length
      ≤ s.capacity := by
  unfold sendCircularBufferWithChannel
  split_ifs with h0 h1 h2
  · exact h
  · exact h
  · simp
    omega
  · exact circularOverwriteLoop_length_le e s.capacity M.toNat 0 s.outputs h

/-- A blocking-queue send keeps the queue within capacity. -/
theorem sendBlockingQueueWithChannel_length_le (s : StreamState)
    (e : StreamEntry) (tmo : Int) (h : s.outputs.length ≤ s.capacity) :
    (sendBlockingQueueWithChannel s e tmo).2.outputs.length ≤ s.capacity := by
  unfold sendBlockingQueueWithChannel
  split_ifs with h0 h1
  · exact h
  · simp
    omega
  · exact h

/-- Every operation keeps the capacity field and the length bound. -/
theorem applyOp_invariant (s : StreamState) (op : Op)
    (h : s.outputs.length ≤ s.capacity) :
    (applyOp s op).outputs.length ≤ (applyOp s op).capacity ∧
    (applyOp s op).capacity = s.capacity := by
  cases op with
  | send o u t b m =>
    have hcirc := sendCircularBufferWithChannel_length_le s
      { outputUUID := u, output := o, timestamp := t } m h
    have hcircc : (sendCircularBufferWithChannel s
        { outputUUID := u, output := o, timestamp := t } m noInterference).2.capacity
          = s.capacity := by
      unfold sendCircularBufferWithChannel
      split_ifs <;> rfl
    have hblk := sendBlockingQueueWithChannel_length_le s
      { outputUUID := u, output := o, timestamp := t } b h
    have hblkc : (sendBlockingQueueWithChannel s
        { outputUUID := u, output := o, timestamp := t } b).2.capacity
          = s.capacity := by
      unfold sendBlockingQueueWithChannel
      split_ifs <;> rfl
    simp only [applyOp, Send]
    split_ifs
    · exact ⟨h, rfl⟩
    · exact ⟨hcircc ▸ hcirc, hcircc⟩
    · exact ⟨hblkc ▸ hblk, hblkc⟩
  | receive t =>
    simp only [applyOp, Receive]
    split_ifs
    · exact ⟨h, rfl⟩
    · cases hs : s.outputs with
      | nil => exact ⟨h, rfl⟩
      | cons e rest =>
        constructor
        · simp only []
          rw [hs] at h
          simp at h ⊢
          omega
        · rfl
  | stop =>
    simp only [applyOp, Stop]
    split_ifs
    · exact ⟨h, rfl⟩
    · exact ⟨h, rfl⟩

/-- The length bound is preserved along any operation sequence. -/
theorem runOps_invariant (ops : List Op) : ∀ (s : StreamState),
    s.outputs.length ≤ s.capacity →
    (runOps s ops).outputs.length ≤ (runOps s ops).capacity := by
  induction ops with
  | nil => intro s h; exact h
  | cons op rest ih =>
    intro s h
    exact ih (applyOp s op) (applyOp_invariant s op h).1

/-- C9: starting from a freshly created buffer, after any sequence of Send,
Receive and Stop operations the number of queued entries never exceeds the
buffer's capacity (every external observation point is the state after some
prefix of the sequence). -/
theorem queue_length_le_capacity (size : Nat) (ops : List Op) :
    (runOps (NewInMemoryStreamImpl size) ops).outputs.length
      ≤ (runOps (NewInMemoryStreamImpl size) ops).capacity :=
  runOps_invariant ops (NewInMemoryStreamImpl size)
    (by simp [NewInMemoryStreamImpl])

/-- C10: with the process-wide iteration cap set to 0, a circular-mode Send
on a full, non-stopped buffer of capacity at least 1 returns the
circular-overflow-exhausted outcome and leaves the buffer completely
unchanged: the cap is checked before the first dequeue, so no entry is
removed and none is added. -/
theorem max_iterations_zero_frame (s : StreamState) (o u t : Nat)
    (bwt : Int) (hstop : s.stopped = false)
    (hfull : s.outputs.length = s.capacity) (hcap : 1 ≤ s.capacity)
    (hb : bwt ≤ 0) :
    Send s o u t bwt (SetCircularBufferMaxIterations 0)
      = (ErrorType.circularBufferIterationLimit, s) := by
  have hc0 : ¬ s.capacity = 0 := by omega
  have hnl : ¬ s.outputs.length < s.capacity := by omega
  unfold Send
  rw [if_neg (by simp [hstop]), if_pos hb]
  unfold sendCircularBufferWithChannel
  rw [if_neg hc0, if_neg (by simp [hstop]), if_neg hnl]
  rfl

/-- Witness for C10 at a concrete full capacity-1 buffer. -/
theorem max_iterations_zero_frame_witness :
    Send fullCapOneBuffer 7 3 5 0 (SetCircularBufferMaxIterations 0)
      = (ErrorType.circularBufferIterationLimit, fullCapOneBuffer) :=
  max_iterations_zero_frame fullCapOneBuffer 7 3 5 0 rfl rfl
    (by decide) (by decide)

end AsyncOutputService
